import Mathlib

/-!
Verification of the Spoolman service bootstrap layer (src/spoolman/main.py):
connection-descriptor construction, startup sequencing, debug-mode CORS
policy, and logging setup. Pure parts are embedded as Lean functions; the
module-level side effects (logging configuration, application composition)
are embedded as explicit state transformations.
-/

namespace Spoolman

/-- Modelled from the spec: the DatabaseType enumeration lives in
spoolman/env.py, which is outside the provided sources. The spec describes a
closed enumeration of supported storage backends with a file-based default
(SQLITE) and one or more networked variants; main.py references
env.DatabaseType.SQLITE. -/
inductive DatabaseType where
  | POSTGRES
  | MYSQL
  | SQLITE
  | COCKROACHDB
deriving DecidableEq, Repr

/-- Modelled from the spec: DatabaseType.to_drivername lives in
spoolman/env.py, which is outside the provided sources. The spec states each
variant maps deterministically to exactly one non-empty driver identifier
string consumed by the storage layer. -/
def DatabaseType.to_drivername : DatabaseType → String
  | .POSTGRES => "postgresql+asyncpg"
  | .MYSQL => "mysql+aiomysql"
  | .SQLITE => "sqlite+aiosqlite"
  | .COCKROACHDB => "cockroachdb+asyncpg"

/-- Modelled from the spec: parsing of the raw database-type string into a
DatabaseType variant lives in spoolman/env.py, outside the provided sources.
The spec says an unrecognized value is a configuration error, so any string
outside the closed set of variant names parses to nothing. -/
def DatabaseType.fromString : String → Option DatabaseType
  | "postgres" => some .POSTGRES
  | "mysql" => some .MYSQL
  | "sqlite" => some .SQLITE
  | "cockroachdb" => some .COCKROACHDB
  | _ => none

/-- Typed connection settings as read from the environment by the getters
called in get_connection_url (main.py lines 64-70): each field is optional,
absence meaning the corresponding environment variable was not supplied. -/
structure ConnectionSettings where
  db_type : Option DatabaseType
  host : Option String
  port : Option Nat
  database : Option String
  query : Option (List (String × String))
  username : Option String
  password : Option String
deriving DecidableEq, Repr

/-- Embedding of the sqlalchemy URL value: an immutable record of the
components handed to URL.create in main.py lines 79-87. -/
structure URL where
  drivername : String
  username : Option String
  password : Option String
  host : Option String
  port : Option Nat
  database : Option String
  query : List (String × String)
deriving DecidableEq, Repr

/-- Embedding of sqlalchemy URL.create: it stores each supplied component
verbatim in the immutable URL record. -/
def URL.create (drivername : String) (host : Option String) (port : Option Nat)
    (database : Option String) (query : List (String × String))
    (username : Option String) (password : Option String) : URL :=
  { drivername := drivername, username := username, password := password,
    host := host, port := port, database := database, query := query }

/-- Embedding of pathlib Path.joinpath as used at main.py line 74: appends the
file name to the directory with a path separator. -/
def joinpath (dir file : String) : String :=
  dir ++ "/" ++ file

/-- Embedding of get_connection_url (main.py lines 62-87), parametrized by the
module-level data_dir (line 18) and the typed settings read from the
environment. When db_type is absent the code substitutes SQLITE and the fixed
default database path, then passes host, port, database, query, username and
password to URL.create; the expression query or \x7b\x7d becomes an empty
mapping when query is absent. -/
def get_connection_url (data_dir : String) (s : ConnectionSettings) : URL :=
  match s.db_type with
  | none =>
      let db_type := DatabaseType.SQLITE
      let database := joinpath data_dir "spoolman.db"
      URL.create db_type.to_drivername s.host s.port (some database)
        (s.query.getD []) s.username s.password
  | some db_type =>
      URL.create db_type.to_drivername s.host s.port s.database
        (s.query.getD []) s.username s.password

/-- Raw (string-level) settings before the environment reader parses the
database type; the other fields are passed through unchanged by the reader. -/
structure RawSettings where
  db_type : Option String
  host : Option String
  port : Option Nat
  database : Option String
  query : Option (List (String × String))
  username : Option String
  password : Option String
deriving DecidableEq, Repr

/-- Modelled from the spec: env.get_database_type lives in spoolman/env.py,
outside the provided sources. Absence of the variable yields no type (the
default-fallback marker); an unrecognized value is a configuration error
surfaced immediately, modelled as an error result. -/
def get_database_type (raw : Option String) : Except String (Option DatabaseType) :=
  match raw with
  | none => Except.ok none
  | some s =>
      match DatabaseType.fromString s with
      | some t => Except.ok (some t)
      | none => Except.error ("unrecognized database type: " ++ s)

/-- Descriptor construction from raw settings: the environment read at
main.py line 64 can fail on an unrecognized database type, in which case the
exception propagates and no URL is built; otherwise get_connection_url builds
the descriptor from the typed settings. -/
def get_connection_url_checked (data_dir : String) (r : RawSettings) :
    Except String URL :=
  match get_database_type r.db_type with
  | Except.error e => Except.error e
  | Except.ok t =>
      Except.ok (get_connection_url data_dir
        { db_type := t, host := r.host, port := r.port, database := r.database,
          query := r.query, username := r.username, password := r.password })

/-- Startup states of the orchestrator, in the linear order of the spec. -/
inductive StartupStage where
  | Uninitialized
  | LoggingReady
  | ConnectionResolved
  | StorageInitialized
  | Serving
deriving DecidableEq, Repr

/-- Names of the startup stages, used to record which stages executed. -/
inductive StageName where
  | logging
  | connection
  | storage
  | serve
deriving DecidableEq, Repr

/-- Embedding of the startup sequencing of main.py: module import performs the
logging setup (lines 22-39), then the startup event handler (lines 90-93)
calls get_connection_url and awaits setup_db, and only then does the process
begin serving. A raised exception aborts before any later stage runs. The
loggingOk and storageOk flags stand for the outcomes of the logging setup and
of the external setup_db collaborator; the connection stage outcome is decided
by get_connection_url_checked. Returns the state reached and the list of
stages that executed, in order. -/
def startupRun (loggingOk : Bool) (data_dir : String) (r : RawSettings)
    (storageOk : Bool) : StartupStage × List StageName :=
  if loggingOk then
    match get_connection_url_checked data_dir r with
    | Except.error _ =>
        (StartupStage.LoggingReady, [StageName.logging, StageName.connection])
    | Except.ok _ =>
        if storageOk then
          (StartupStage.Serving,
            [StageName.logging, StageName.connection, StageName.storage,
              StageName.serve])
        else
          (StartupStage.ConnectionResolved,
            [StageName.logging, StageName.connection, StageName.storage])
  else
    (StartupStage.Uninitialized, [StageName.logging])

/-- The raw settings when no database configuration is supplied at all. -/
def noSettings : RawSettings :=
  { db_type := none, host := none, port := none, database := none,
    query := none, username := none, password := none }

/-- Cross-origin policy record, mirroring the keyword arguments handed to
CORSMiddleware in main.py lines 53-59. -/
structure CORSPolicy where
  allow_origins : List String
  allow_credentials : Bool
  allow_methods : List String
  allow_headers : List String
deriving DecidableEq, Repr

/-- Result of composing the process-wide application object: the mounted path
roots, the optional cross-origin policy, and the warning-level log records
emitted during composition. -/
structure AppComposition where
  debug : Bool
  mounts : List String
  cors : Option CORSPolicy
  warningLogs : List String
deriving DecidableEq, Repr

/-- Embedding of the module-level application composition in main.py lines
44-59: the API and static surfaces are always mounted; when the debug flag is
set a warning is logged and a CORS policy allowing any origin, any method and
any header with credentials is installed, otherwise no such policy exists. -/
def composeApp (debug : Bool) : AppComposition :=
  { debug := debug,
    mounts := ["/api/v1", "/"],
    cors :=
      if debug then
        some { allow_origins := ["*"], allow_credentials := true,
               allow_methods := ["*"], allow_headers := ["*"] }
      else none,
    warningLogs :=
      if debug then ["Running in debug mode, allowing all origins."] else [] }

/-- A handler attached to the python root logger. Python compares handler
objects by identity in Logger.addHandler, modelled by a numeric id that is
fresh for each constructed handler object. -/
inductive LogHandler where
  | file (filename : String) (id : Nat)
  | stream (id : Nat)
deriving DecidableEq, Repr

/-- Whether a handler is the file sink. -/
def LogHandler.isFile : LogHandler → Bool
  | .file _ _ => true
  | .stream _ => false

/-- The identity of a handler object. -/
def LogHandler.idOf : LogHandler → Nat
  | .file _ i => i
  | .stream i => i

/-- State of the process-wide logging configuration: the handlers attached to
the root logger and a counter supplying fresh object identities. -/
structure LoggingState where
  rootHandlers : List LogHandler
  nextId : Nat
deriving DecidableEq, Repr

/-- The logging state of a freshly started process: no handlers. -/
def initialLoggingState : LoggingState :=
  { rootHandlers := [], nextId := 0 }

/-- Embedding of logging.basicConfig with a filename and the default
force=False (main.py lines 22-27): python attaches a new file handler to the
root logger only when the root logger has no handlers at all, and otherwise
does nothing. -/
def basicConfig (filename : String) (st : LoggingState) : LoggingState :=
  if st.rootHandlers.isEmpty then
    { rootHandlers := st.rootHandlers ++ [LogHandler.file filename st.nextId],
      nextId := st.nextId + 1 }
  else st

/-- Embedding of Logger.addHandler: the handler is appended unless the very
same object is already attached. -/
def addHandler (h : LogHandler) (st : LoggingState) : LoggingState :=
  if h ∈ st.rootHandlers then st
  else { st with rootHandlers := st.rootHandlers ++ [h] }

/-- Embedding of the logging setup in main.py lines 21-39: basicConfig
installs the file sink, then a fresh StreamHandler object is constructed and
added to the root logger as the console sink. -/
def setupLogging (st : LoggingState) : LoggingState :=
  let st1 := basicConfig "spoolman.log" st
  let console := LogHandler.stream st1.nextId
  let st2 : LoggingState := { st1 with nextId := st1.nextId + 1 }
  addHandler console st2

/-- Number of file sinks attached to the root logger. -/
def fileSinkCount (st : LoggingState) : Nat :=
  (st.rootHandlers.filter LogHandler.isFile).length

/-- Number of console sinks attached to the root logger. -/
def consoleSinkCount (st : LoggingState) : Nat :=
  (st.rootHandlers.filter (fun h => ! h.isFile)).length

/-- The logging setup iterated n times from the fresh process state. -/
def setupLoggingIter : Nat → LoggingState
  | 0 => initialLoggingState
  | n + 1 => setupLogging (setupLoggingIter n)

/-- Concrete settings exercising the default-fallback branch while supplying
the network-related fields. -/
def fallbackSettings : ConnectionSettings :=
  { db_type := none, host := some "dbhost", port := some 5432,
    database := none, query := none, username := some "user",
    password := some "secret" }

/-- Concrete settings with an explicit database type and every field
supplied. -/
def explicitSettings : ConnectionSettings :=
  { db_type := some DatabaseType.POSTGRES, host := some "db",
    port := some 5432, database := some "spoolman",
    query := some [("sslmode", "require")], username := some "user",
    password := some "secret" }

/-- Concrete settings with an explicit database type and no query
parameters. -/
def noQuerySettings : ConnectionSettings :=
  { db_type := some DatabaseType.MYSQL, host := some "db", port := none,
    database := some "spoolman", query := none, username := none,
    password := none }

/-- Concrete settings with no database type but a supplied database path and
query parameters. -/
def fallbackFullSettings : ConnectionSettings :=
  { db_type := none, host := none, port := none,
    database := some "/custom/other.db", query := some [("timeout", "30")],
    username := none, password := none }

/-- Concrete raw settings whose database-type literal is unsupported. -/
def badTypeSettings : RawSettings :=
  { db_type := some "mongodb", host := none, port := none, database := none,
    query := none, username := none, password := none }

/-- Invariant of the iterated logging setup: every attached handler has an
identity below the freshness counter, and from the first invocation on there
is exactly one file sink while the console sinks accumulate one per
invocation. -/
theorem setupLoggingIter_invariant (n : Nat) :
    (∀ h ∈ (setupLoggingIter n).rootHandlers,
        LogHandler.idOf h < (setupLoggingIter n).nextId) ∧
    (1 ≤ n → (setupLoggingIter n).rootHandlers ≠ [] ∧
      fileSinkCount (setupLoggingIter n) = 1 ∧
      consoleSinkCount (setupLoggingIter n) = n) := by
  induction n with
  | zero =>
      refine ⟨?_, ?_⟩
      · intro h hm
        simp [setupLoggingIter, initialLoggingState] at hm
      · intro h
        exact absurd h (by decide)
  | succ n ih =>
      rcases Nat.eq_zero_or_pos n with hn | hn
      · subst hn
        refine ⟨?_, ?_⟩
        · intro h hm
          have : h = LogHandler.file "spoolman.log" 0 ∨ h = LogHandler.stream 1 := by
            simpa [setupLoggingIter, setupLogging, basicConfig, addHandler,
              initialLoggingState] using hm
          rcases this with rfl | rfl <;>
            simp [setupLoggingIter, setupLogging, basicConfig, addHandler,
              initialLoggingState, LogHandler.idOf]
        · intro _
          refine ⟨?_, ?_, ?_⟩ <;> decide
      · obtain ⟨hinv, hrest⟩ := ih
        obtain ⟨hne, hfile, hcons⟩ := hrest hn
        have hbc : basicConfig "spoolman.log" (setupLoggingIter n) = setupLoggingIter n := by
          unfold basicConfig
          simp [List.isEmpty_iff, hne]
        have hmem : LogHandler.stream (setupLoggingIter n).nextId ∉
            (setupLoggingIter n).rootHandlers := by
          intro hmem
          have hlt := hinv _ hmem
          simp [LogHandler.idOf] at hlt
        have hstep : setupLoggingIter (n + 1) =
            { rootHandlers := (setupLoggingIter n).rootHandlers ++
                [LogHandler.stream (setupLoggingIter n).nextId],
              nextId := (setupLoggingIter n).nextId + 1 } := by
          show setupLogging (setupLoggingIter n) = _
          unfold setupLogging addHandler
          rw [hbc]
          simp [hmem]
        refine ⟨?_, ?_⟩
        · intro h hm
          rw [hstep] at hm ⊢
          simp only [List.mem_append, List.mem_singleton] at hm
          rcases hm with hm | rfl
          · exact Nat.lt_succ_of_lt (hinv _ hm)
          · simp [LogHandler.idOf]
        · intro _
          refine ⟨?_, ?_, ?_⟩
          · rw [hstep]
            simp
          · unfold fileSinkCount at hfile ⊢
            rw [hstep]
            simp [List.filter_append, LogHandler.isFile, hfile]
          · unfold consoleSinkCount at hcons ⊢
            rw [hstep]
            rw [List.filter_append]
            simp only [List.length_append]
            rw [hcons]
            simp [LogHandler.isFile]

/-- C1 counterexample: with database type absent but host, port, username and
password supplied, the descriptor built by get_connection_url does contain
those fields, refuting the claim that they are ignored and absent from the
descriptor. -/
theorem sqlite_fallback_ignores_network_fields_refuted :
    ¬((get_connection_url "/data" fallbackSettings).host = none ∧
      (get_connection_url "/data" fallbackSettings).port = none ∧
      (get_connection_url "/data" fallbackSettings).username = none ∧
      (get_connection_url "/data" fallbackSettings).password = none) := by
  decide

/-- C1 (amended): with database type absent, get_connection_url yields a
SQLite descriptor whose database is the fixed default path inside the data
directory, while any supplied host, port, username and password are passed
through unchanged into the descriptor rather than being ignored. -/
theorem sqlite_fallback_passes_network_fields (data_dir : String)
    (s : ConnectionSettings) (h : s.db_type = none) :
    (get_connection_url data_dir s).drivername =
        DatabaseType.to_drivername DatabaseType.SQLITE ∧
    (get_connection_url data_dir s).database =
        some (joinpath data_dir "spoolman.db") ∧
    (get_connection_url data_dir s).host = s.host ∧
    (get_connection_url data_dir s).port = s.port ∧
    (get_connection_url data_dir s).username = s.username ∧
    (get_connection_url data_dir s).password = s.password := by
  simp [get_connection_url, h, URL.create]

/-- C1 witness: the amended statement at a concrete input. -/
theorem sqlite_fallback_passes_network_fields_witness :
    fallbackSettings.db_type = none ∧
    ((get_connection_url "/data" fallbackSettings).drivername =
        DatabaseType.to_drivername DatabaseType.SQLITE ∧
      (get_connection_url "/data" fallbackSettings).database =
        some (joinpath "/data" "spoolman.db") ∧
      (get_connection_url "/data" fallbackSettings).host =
        fallbackSettings.host ∧
      (get_connection_url "/data" fallbackSettings).port =
        fallbackSettings.port ∧
      (get_connection_url "/data" fallbackSettings).username =
        fallbackSettings.username ∧
      (get_connection_url "/data" fallbackSettings).password =
        fallbackSettings.password) :=
  ⟨rfl, sqlite_fallback_passes_network_fields "/data" fallbackSettings rfl⟩

/-- C2: with an explicit database type, get_connection_url preserves each
supplied optional field unchanged in the descriptor, omits each absent field,
carries every supplied query key and value unchanged, and uses the driver
identifier of the given type. -/
theorem explicit_type_preserves_fields (data_dir : String)
    (s : ConnectionSettings) (t : DatabaseType) (h : s.db_type = some t) :
    (get_connection_url data_dir s).drivername = DatabaseType.to_drivername t ∧
    (get_connection_url data_dir s).host = s.host ∧
    (get_connection_url data_dir s).port = s.port ∧
    (get_connection_url data_dir s).database = s.database ∧
    (get_connection_url data_dir s).username = s.username ∧
    (get_connection_url data_dir s).password = s.password ∧
    (∀ q, s.query = some q → (get_connection_url data_dir s).query = q) ∧
    (s.query = none → (get_connection_url data_dir s).query = []) := by
  have hq1 : ∀ q, s.query = some q → (get_connection_url data_dir s).query = q := by
    intro q hq
    simp [get_connection_url, h, URL.create, hq]
  have hq2 : s.query = none → (get_connection_url data_dir s).query = [] := by
    intro hq
    simp [get_connection_url, h, URL.create, hq]
  refine ⟨?_, ?_, ?_, ?_, ?_, ?_, hq1, hq2⟩ <;>
    simp [get_connection_url, h, URL.create]

/-- C2 witness: the statement at a concrete input with every field supplied. -/
theorem explicit_type_preserves_fields_witness :
    explicitSettings.db_type = some DatabaseType.POSTGRES ∧
    ((get_connection_url "/data" explicitSettings).drivername =
        DatabaseType.to_drivername DatabaseType.POSTGRES ∧
      (get_connection_url "/data" explicitSettings).host =
        explicitSettings.host ∧
      (get_connection_url "/data" explicitSettings).port =
        explicitSettings.port ∧
      (get_connection_url "/data" explicitSettings).database =
        explicitSettings.database ∧
      (get_connection_url "/data" explicitSettings).username =
        explicitSettings.username ∧
      (get_connection_url "/data" explicitSettings).password =
        explicitSettings.password ∧
      (∀ q, explicitSettings.query = some q →
        (get_connection_url "/data" explicitSettings).query = q) ∧
      (explicitSettings.query = none →
        (get_connection_url "/data" explicitSettings).query = [])) :=
  ⟨rfl, explicit_type_preserves_fields "/data" explicitSettings
    DatabaseType.POSTGRES rfl⟩

/-- C3: when the raw database-type value is not a recognized DatabaseType
variant, descriptor construction surfaces a configuration error, produces no
descriptor, and startup never reaches the storage stage or the Serving
state. -/
theorem unrecognized_db_type_fails_fast (data_dir : String) (r : RawSettings)
    (s : String) (h1 : r.db_type = some s)
    (h2 : DatabaseType.fromString s = none) :
    (∃ e, get_connection_url_checked data_dir r = Except.error e) ∧
    (∀ u, get_connection_url_checked data_dir r ≠ Except.ok u) ∧
    (∀ storageOk, StageName.storage ∉ (startupRun true data_dir r storageOk).2 ∧
      (startupRun true data_dir r storageOk).1 ≠ StartupStage.Serving) := by
  have herr : get_connection_url_checked data_dir r =
      Except.error ("unrecognized database type: " ++ s) := by
    simp [get_connection_url_checked, get_database_type, h1, h2]
  refine ⟨⟨_, herr⟩, ?_, ?_⟩
  · intro u hu
    rw [herr] at hu
    exact Except.noConfusion hu
  · intro storageOk
    constructor
    · simp [startupRun, herr]
    · simp [startupRun, herr]

/-- C3 witness: the statement at a concrete unrecognized literal. -/
theorem unrecognized_db_type_fails_fast_witness :
    badTypeSettings.db_type = some "mongodb" ∧
    DatabaseType.fromString "mongodb" = none ∧
    ((∃ e, get_connection_url_checked "/data" badTypeSettings =
        Except.error e) ∧
      (∀ u, get_connection_url_checked "/data" badTypeSettings ≠
        Except.ok u) ∧
      (∀ storageOk, StageName.storage ∉
          (startupRun true "/data" badTypeSettings storageOk).2 ∧
        (startupRun true "/data" badTypeSettings storageOk).1 ≠
          StartupStage.Serving)) :=
  ⟨rfl, rfl, unrecognized_db_type_fails_fast "/data" badTypeSettings
    "mongodb" rfl rfl⟩

/-- C4: startup executes the stages in the linear order logging, connection
resolution, storage initialization, serving; the process reaches Serving
exactly when every stage succeeds, and whenever a stage fails no later stage
executes and the final state is not Serving. -/
theorem startup_monotonic (loggingOk : Bool) (data_dir : String)
    (r : RawSettings) (storageOk : Bool) :
    ((startupRun loggingOk data_dir r storageOk).2 = [StageName.logging] ∨
      (startupRun loggingOk data_dir r storageOk).2 =
        [StageName.logging, StageName.connection] ∨
      (startupRun loggingOk data_dir r storageOk).2 =
        [StageName.logging, StageName.connection, StageName.storage] ∨
      (startupRun loggingOk data_dir r storageOk).2 =
        [StageName.logging, StageName.connection, StageName.storage,
          StageName.serve]) ∧
    ((startupRun loggingOk data_dir r storageOk).1 = StartupStage.Serving ↔
      loggingOk = true ∧
        (∃ u, get_connection_url_checked data_dir r = Except.ok u) ∧
        storageOk = true) ∧
    (loggingOk = false →
      (startupRun loggingOk data_dir r storageOk).2 = [StageName.logging] ∧
      (startupRun loggingOk data_dir r storageOk).1 = StartupStage.Uninitialized) ∧
    (∀ e, get_connection_url_checked data_dir r = Except.error e →
      StageName.storage ∉ (startupRun loggingOk data_dir r storageOk).2 ∧
      StageName.serve ∉ (startupRun loggingOk data_dir r storageOk).2 ∧
      (startupRun loggingOk data_dir r storageOk).1 ≠ StartupStage.Serving) ∧
    (storageOk = false →
      StageName.serve ∉ (startupRun loggingOk data_dir r storageOk).2 ∧
      (startupRun loggingOk data_dir r storageOk).1 ≠ StartupStage.Serving) := by
  cases loggingOk <;>
    rcases hc : get_connection_url_checked data_dir r with e | u <;>
    cases storageOk <;>
    simp [startupRun, hc]

/-- C4 witness: with a storage-initialization failure at a concrete input, the
serve stage does not execute and the process does not reach Serving. -/
theorem startup_monotonic_witness :
    StageName.serve ∉ (startupRun true "/data" noSettings false).2 ∧
    (startupRun true "/data" noSettings false).1 ≠ StartupStage.Serving :=
  (startup_monotonic true "/data" noSettings false).2.2.2.2 rfl

/-- C5: at application composition time, a true debug flag installs a
cross-origin policy allowing any origin, any method and any header with
credentials and emits the warning log about the relaxed posture, while a
false debug flag installs no cross-origin policy. -/
theorem debug_cors_policy :
    (composeApp true).cors =
      some { allow_origins := ["*"], allow_credentials := true,
             allow_methods := ["*"], allow_headers := ["*"] } ∧
    "Running in debug mode, allowing all origins." ∈
      (composeApp true).warningLogs ∧
    (composeApp false).cors = none ∧
    (composeApp false).warningLogs = [] := by
  refine ⟨rfl, ?_, rfl, rfl⟩
  simp [composeApp]

/-- C6: with no database configuration supplied at all, the descriptor is the
SQLite one located at the fixed filename inside the data directory, and when
the logging setup and the external storage initialization succeed, startup
reaches Serving. -/
theorem no_config_default_sqlite_serving (data_dir : String)
    (loggingOk storageOk : Bool) (hlog : loggingOk = true)
    (hst : storageOk = true) :
    get_connection_url_checked data_dir noSettings =
      Except.ok
        { drivername := DatabaseType.to_drivername DatabaseType.SQLITE,
          username := none, password := none, host := none, port := none,
          database := some (joinpath data_dir "spoolman.db"), query := [] } ∧
    (startupRun loggingOk data_dir noSettings storageOk).1 =
      StartupStage.Serving := by
  subst hlog hst
  constructor
  · simp [get_connection_url_checked, get_database_type, noSettings,
      get_connection_url, URL.create]
  · simp [startupRun, get_connection_url_checked, get_database_type,
      noSettings, get_connection_url, URL.create]

/-- C6 witness: the statement at a concrete data directory. -/
theorem no_config_default_sqlite_serving_witness :
    (true = true) ∧ (true = true) ∧
    (get_connection_url_checked "/data" noSettings =
      Except.ok
        { drivername := DatabaseType.to_drivername DatabaseType.SQLITE,
          username := none, password := none, host := none, port := none,
          database := some (joinpath "/data" "spoolman.db"), query := [] } ∧
    (startupRun true "/data" noSettings true).1 = StartupStage.Serving) :=
  ⟨rfl, rfl, no_config_default_sqlite_serving "/data" true true rfl rfl⟩

/-- C7 counterexample: invoking the logging setup twice does not leave the
sinks as after a single invocation — the console sink is duplicated, because
a fresh StreamHandler object is constructed and added on each invocation. -/
theorem logging_reinvocation_idempotent_refuted :
    (setupLoggingIter 2).rootHandlers ≠ (setupLoggingIter 1).rootHandlers ∧
    consoleSinkCount (setupLoggingIter 2) = 2 ∧
    consoleSinkCount (setupLoggingIter 1) = 1 := by
  decide

/-- C7 (amended): iterated invocation of the logging setup never duplicates
the file sink, which basicConfig installs only into a handler-free root
logger, but each re-invocation attaches one additional console sink. -/
theorem logging_reinvocation_counts (n : Nat) (h : 1 ≤ n) :
    fileSinkCount (setupLoggingIter n) = 1 ∧
    consoleSinkCount (setupLoggingIter n) = n :=
  ⟨((setupLoggingIter_invariant n).2 h).2.1,
    ((setupLoggingIter_invariant n).2 h).2.2⟩

/-- C7 witness: the amended statement after three invocations. -/
theorem logging_reinvocation_counts_witness :
    1 ≤ 3 ∧ (fileSinkCount (setupLoggingIter 3) = 1 ∧
      consoleSinkCount (setupLoggingIter 3) = 3) :=
  ⟨by decide, logging_reinvocation_counts 3 (by decide)⟩

/-- C8: the variant-to-driver-identifier mapping is total (a Lean function on
the closed enumeration), deterministic, yields a non-empty identifier for
every variant, and is injective. -/
theorem to_drivername_total_nonempty_injective :
    (∀ v : DatabaseType, DatabaseType.to_drivername v ≠ "") ∧
    Function.Injective DatabaseType.to_drivername := by
  constructor
  · intro v
    cases v <;> decide
  · intro v w hvw
    cases v <;> cases w <;> first | rfl | exact absurd hvw (by decide)

/-- C9: when the extra query-parameter mapping is absent, get_connection_url
still builds the descriptor and its query mapping is empty, in both the
default-fallback branch and the explicit-type branch. -/
theorem absent_query_empty_mapping (data_dir : String)
    (s : ConnectionSettings) (h : s.query = none) :
    (get_connection_url data_dir s).query = [] := by
  cases ht : s.db_type <;> simp [get_connection_url, ht, URL.create, h]

/-- C9 witness: the statement at a concrete input without query parameters. -/
theorem absent_query_empty_mapping_witness :
    noQuerySettings.query = none ∧
    (get_connection_url "/data" noQuerySettings).query = [] :=
  ⟨rfl, absent_query_empty_mapping "/data" noQuerySettings rfl⟩

/-- C10: with database type absent, any supplied database name is discarded
in favour of the fixed default file path, while supplied query parameters are
carried unchanged into the SQLite descriptor. -/
theorem sqlite_fallback_overrides_database_keeps_query (data_dir : String)
    (s : ConnectionSettings) (h : s.db_type = none) :
    (get_connection_url data_dir s).database =
      some (joinpath data_dir "spoolman.db") ∧
    (∀ q, s.query = some q → (get_connection_url data_dir s).query = q) := by
  constructor
  · simp [get_connection_url, h, URL.create]
  · intro q hq
    simp [get_connection_url, h, URL.create, hq]

/-- C10 witness: the statement at a concrete input that supplies both a
database path and query parameters. -/
theorem sqlite_fallback_overrides_database_keeps_query_witness :
    fallbackFullSettings.db_type = none ∧
    ((get_connection_url "/data" fallbackFullSettings).database =
        some (joinpath "/data" "spoolman.db") ∧
      (∀ q, fallbackFullSettings.query = some q →
        (get_connection_url "/data" fallbackFullSettings).query = q)) :=
  ⟨rfl, sqlite_fallback_overrides_database_keeps_query "/data"
    fallbackFullSettings rfl⟩

end Spoolman
